import Mathlib

/-!
# duckdb.mojo, `experimental/db.c` and `experimental/ffi.c`

A shallow embedding of the two experimental C programs and the properties
of their control flow.

Both programs are straight-line sequences of calls into the DuckDB client
library with `printf` inspection in between.  The library is outside the
repository, so a run is described by

* the values the library hands back (`Outcomes`), which the theorems
  quantify over, and
* the trace the program produces: the library calls it makes, with their
  arguments, interleaved with its `printf` calls (`Event`).

Conventions.  `idx_t` (`uint64_t`), `size_t` and `int` values are natural
numbers or integers; the only arithmetic the programs perform on them is
`rows++`, `i++` and `c++` under a loop guard that keeps the incremented
value at most the bound it is compared with, so none of the increments can
wrap (`col_loop_increment_no_wrap` records this for `c++`).  The one
narrowing conversion, `idx_t` to `int` for the chunk count, is modelled by
`int_of_idx`.  Handles are opaque pointer values.
-/

namespace DuckDB

/-! ## Data model -/

/-- An opaque handle value (`duckdb_database`, `duckdb_connection`,
`duckdb_data_chunk`, `duckdb_vector`, or the content of a `duckdb_result`
local as far as `db.c` is concerned). -/
abbrev Handle := Nat

/-- Values of `idx_t` and `size_t`. -/
abbrev idx_t := Nat

/-- The two values of `duckdb_state` the programs compare against. -/
inductive duckdb_state where
  | DuckDBSuccess
  | DuckDBError
  deriving DecidableEq, Repr

/-- A C pointer value as far as `ffi.c` can tell: the address of a string
literal of the program, or some other address. -/
inductive Ptr where
  | literal (s : String)
  | addr (a : Nat)
  deriving DecidableEq, Repr

/-- One variadic argument of a `printf` call, as passed. -/
inductive Arg where
  | ulong (v : Nat)
  | int (v : Int)
  | ptr (p : Ptr)
  deriving DecidableEq, Repr

/-- One observable step of a run: a call into the client library with its
arguments, or a `printf` with its format string and arguments. -/
inductive Event where
  | printf (fmt : String) (args : List Arg)
  | duckdb_open (path : String)
  | duckdb_connect (db : Handle)
  | duckdb_query (con : Handle) (sql : String) (out_result : Bool)
  | duckdb_vector_size
  | duckdb_row_count (result : Handle)
  | duckdb_result_is_streaming (result : Handle)
  | duckdb_result_chunk_count (result : Handle)
  | duckdb_result_get_chunk (result : Handle) (chunk_index : idx_t)
  | duckdb_data_chunk_get_size (chunk : Handle)
  | duckdb_data_chunk_get_column_count (chunk : Handle)
  | duckdb_data_chunk_get_vector (chunk : Handle) (col_idx : idx_t)
  | duckdb_vector_get_column_type (vec : Handle)
  | duckdb_vector_get_data (vec : Handle)
  | duckdb_vector_get_validity (vec : Handle)
  | duckdb_destroy_data_chunk (chunk : Handle)
  | duckdb_destroy_result (result : Handle)
  | duckdb_disconnect (con : Handle)
  | duckdb_close (db : Handle)
  deriving DecidableEq, Repr

/-- What the client library hands back during one run of `write_table` or
`read_table`.  `db`, `con`, `result`, `chunk` are the contents of the
locals of those names after the call that is given their address (whatever
the call wrote, or the indeterminate initial content when it wrote
nothing); `query_state` is the state of the first `duckdb_query` of the run
(CREATE TABLE in `write_table`, SELECT in `read_table`),
`insert_state k` the state of the INSERT issued when `rows` was `k`, and
`vector c` the vector `duckdb_data_chunk_get_vector(chunk, c)` returns.
The remaining fields are the values returned by the call of that name. -/
structure Outcomes where
  open_state : duckdb_state
  db : Handle
  connect_state : duckdb_state
  con : Handle
  query_state : duckdb_state
  insert_state : Nat → duckdb_state
  result : Handle
  vector_size : idx_t
  row_count : idx_t
  is_streaming : Bool
  chunk_count : idx_t
  chunk : Handle
  chunk_size : idx_t
  column_count : idx_t
  vector : idx_t → Handle

/-- Conversion of an `idx_t` to `int` (`int chunk_count = ...`): the low 32
bits, read as two's complement. -/
def int_of_idx (v : idx_t) : Int :=
  let w : Nat := v % 2 ^ 32
  if w < 2 ^ 31 then (w : Int) else (w : Int) - 2 ^ 32

/-- A `bool` passed through `printf`'s variadic list is promoted to `int`. -/
def int_of_bool (b : Bool) : Int := if b then 1 else 0

/-! ## `db.c` -/

def CREATE_SQL : String :=
  "CREATE TABLE test_tbl (int_col INTEGER, float_col FLOAT, text_col TEXT)"

def INSERT_SQL : String :=
  "INSERT INTO test_tbl VALUES (4321, 1234.0, 'ducks')"

def SELECT_SQL : String := "SELECT * FROM test_tbl"

/-- The statement `if (state == DuckDBError) { printf(msg); }`. -/
def on_error (state : duckdb_state) (msg : String) : List Event :=
  if state = duckdb_state.DuckDBError then [Event.printf msg []] else []

/-- The body of the loop of `write_table`, run for the INSERT numbered `k`
(the value `rows` had when the guard was tested). -/
def insert_body (o : Outcomes) (k : Nat) : List Event :=
  [Event.duckdb_query o.con INSERT_SQL false]
    ++ on_error (o.insert_state k) "ERROR inserting row\n"

/-- The loop `while (rows++ < 10000) { ... }` of `write_table`, entered with
the given value of `rows` and the trace `out` so far: the old value is
tested, `rows` is incremented, and the body runs when the old value was
below 10000.  The result is the trace when the loop is left. -/
def insert_loop (o : Outcomes) (rows : Nat) (out : List Event) : List Event :=
  if rows < 10000 then
    insert_loop o (rows + 1) (out ++ insert_body o rows)
  else
    out
termination_by 10000 - rows

/-- Translation of `write_table`, db.c lines 4-36. -/
def write_table (o : Outcomes) : List Event :=
  [Event.duckdb_open "test.db"]
    ++ on_error o.open_state "ERROR opening database\n"
    ++ [Event.duckdb_connect o.db]
    ++ on_error o.connect_state "ERROR connecting to database\n"
    ++ [Event.printf "writing table\n" []]
    ++ [Event.duckdb_query o.con CREATE_SQL false]
    ++ (if o.query_state = duckdb_state.DuckDBError then
          -- printf; return;
          [Event.printf "ERROR creating table\n" []]
        else
          insert_loop o 0 []
            ++ [Event.duckdb_disconnect o.con]
            ++ [Event.duckdb_close o.db])

/-- The body of the column loop of `read_table` for column `c`. -/
def col_body (o : Outcomes) (c : idx_t) : List Event :=
  [Event.printf "CHUNK COL: %ld\n" [Arg.ulong c],
   Event.duckdb_data_chunk_get_vector o.chunk c,
   Event.duckdb_vector_get_column_type (o.vector c),
   Event.duckdb_vector_get_data (o.vector c),
   Event.duckdb_vector_get_validity (o.vector c)]

/-- The loop `for (idx_t c = 0; c < col_cnt; c++) { ... }` of `read_table`,
from the given value of `c` and the trace `out` so far.  The result is the
trace when the loop is left. -/
def col_loop (o : Outcomes) (col_cnt : idx_t) (c : idx_t) (out : List Event) :
    List Event :=
  if c < col_cnt then
    col_loop o col_cnt (c + 1) (out ++ col_body o c)
  else
    out
termination_by col_cnt - c
decreasing_by
  unfold idx_t at *
  omega

/-- Translation of `read_table`, db.c lines 38-93. -/
def read_table (o : Outcomes) : List Event :=
  [Event.duckdb_open "test.db"]
    ++ on_error o.open_state "ERROR opening database\n"
    ++ [Event.duckdb_connect o.db]
    ++ on_error o.connect_state "ERROR connecting to database\n"
    ++ [Event.duckdb_query o.con SELECT_SQL true]
    ++ on_error o.query_state "ERROR executing query\n"
    ++ [Event.duckdb_vector_size,
        Event.printf "VECTOR SIZE: %li\n" [Arg.ulong o.vector_size],
        Event.duckdb_row_count o.result,
        Event.printf "ROW COUNT: %li\n" [Arg.ulong o.row_count],
        Event.duckdb_result_is_streaming o.result,
        Event.printf "IS STREAMING: %d\n" [Arg.int (int_of_bool o.is_streaming)],
        Event.duckdb_result_chunk_count o.result,
        Event.printf "CHUNK COUNT: %d\n" [Arg.int (int_of_idx o.chunk_count)],
        Event.duckdb_result_get_chunk o.result 1,
        Event.duckdb_data_chunk_get_size o.chunk,
        Event.printf "CHUNK ROW COUNT: %li\n" [Arg.ulong o.chunk_size],
        Event.duckdb_data_chunk_get_column_count o.chunk,
        Event.printf "CHUNK COLUMN COUNT: %li\n" [Arg.ulong o.column_count]]
    ++ col_loop o o.column_count 0 []
    ++ [Event.duckdb_destroy_data_chunk o.chunk,
        Event.duckdb_destroy_result o.result,
        Event.duckdb_disconnect o.con,
        Event.duckdb_close o.db]

/-- The character `*arg` of a C string: its first character, or the
terminating NUL when the string is empty. -/
def first_char (arg : String) : Char :=
  arg.data.headD (Char.ofNat 0)

/-- The state of a run of the benchmark program: `env k` is what the library
hands back during the `k`-th call of `read_table` or `write_table`, `runs`
counts those calls and `out` is the trace so far. -/
structure Proc where
  env : Nat → Outcomes
  runs : Nat
  out : List Event

/-- A call `f();` of `read_table` or `write_table` from `main`. -/
def Proc.call (f : Outcomes → List Event) (p : Proc) : Proc :=
  { p with runs := p.runs + 1, out := p.out ++ f (p.env p.runs) }

/-- The loop `for (int i = 1; i < argc; i++) { ... }` of `main` in db.c, from
the given value of `i`; `argc` is the length of `argv`. -/
def db_main_loop (argv : List String) (i : Nat) (p : Proc) : Proc :=
  if h : i < argv.length then
    let arg := argv[i]
    if first_char arg = 'r' then
      db_main_loop argv (i + 1) (p.call read_table)
    else if first_char arg = 'w' then
      db_main_loop argv (i + 1) (p.call write_table)
    else
      db_main_loop argv (i + 1) p
  else
    p
termination_by argv.length - i

/-- Translation of `main`, db.c lines 95-109. -/
def db_main (argv : List String) (p : Proc) : Proc :=
  db_main_loop argv 1 p

/-! ## `ffi.c` -/

/-- The struct `duckdb_result` as the comment of ffi.c lines 31-52 gives it
(the branch for the current API version). -/
structure duckdb_result where
  __deprecated_column_count : idx_t
  __deprecated_row_count : idx_t
  __deprecated_rows_changed : idx_t
  __deprecated_columns : Ptr
  __deprecated_error_message : Ptr
  internal_data : Ptr
  deriving DecidableEq, Repr

/-- The types `print_allocs` measures. -/
inductive CType where
  | duckdb_config
  | duckdb_database
  | duckdb_connection
  | duckdb_result
  | duckdb_prepared_statement
  | duckdb_appender
  deriving DecidableEq, Repr

/-- The values of `sizeof` and `alignof` on the measured types; they are
fixed by `duckdb.h` and the target, outside the repository. -/
structure Abi where
  sizeof : CType → Nat
  alignof : CType → Nat

/-- The twelve `const size_t` locals of `print_allocs`. -/
structure AllocLocals where
  config_sizeof : Nat
  config_alignof : Nat
  database_sizeof : Nat
  database_alignof : Nat
  connection_sizeof : Nat
  connection_alignof : Nat
  result_sizeof : Nat
  result_alignof : Nat
  statement_sizeof : Nat
  statement_alignof : Nat
  appender_sizeof : Nat
  appender_alignof : Nat
  deriving DecidableEq, Repr

/-- Translation of `print_allocs`, ffi.c lines 5-29: the values of its locals
and what it prints. -/
def print_allocs (abi : Abi) : AllocLocals × List Event :=
  let config_sizeof := abi.sizeof CType.duckdb_config
  let config_alignof := abi.alignof CType.duckdb_config
  let database_sizeof := abi.sizeof CType.duckdb_database
  let database_alignof := abi.alignof CType.duckdb_database
  let connection_sizeof := abi.sizeof CType.duckdb_connection
  let connection_alignof := abi.alignof CType.duckdb_connection
  let result_sizeof := abi.sizeof CType.duckdb_result
  let result_alignof := abi.alignof CType.duckdb_result
  let statement_sizeof := abi.sizeof CType.duckdb_prepared_statement
  let statement_alignof := abi.alignof CType.duckdb_prepared_statement
  let appender_sizeof := abi.sizeof CType.duckdb_appender
  let appender_alignof := abi.alignof CType.duckdb_appender
  ({ config_sizeof, config_alignof, database_sizeof, database_alignof,
     connection_sizeof, connection_alignof, result_sizeof, result_alignof,
     statement_sizeof, statement_alignof, appender_sizeof, appender_alignof },
   [Event.printf "RESULT SIZE: %li\n" [Arg.ulong result_sizeof],
    Event.printf "RESULT ALIGN: %li\n" [Arg.ulong result_alignof]])

/-- Translation of `set_struct_values`, ffi.c lines 54-61: the content of
`*out_result` after the call, from its content before. -/
def set_struct_values (out_result : duckdb_result) : duckdb_result :=
  let r := { out_result with __deprecated_column_count := 100 }
  let r := { r with __deprecated_row_count := 200 }
  let r := { r with __deprecated_rows_changed := 300 }
  let r := { r with __deprecated_error_message := Ptr.literal "error message" }
  { r with internal_data := Ptr.literal "internal data" }

/-- Translation of `read_struct_values`, ffi.c lines 63-70. -/
def read_struct_values (result : duckdb_result) : List Event :=
  [Event.printf "column_count: %lu\n" [Arg.ulong result.__deprecated_column_count],
   Event.printf "row_count: %lu\n" [Arg.ulong result.__deprecated_row_count],
   Event.printf "rows_changed: %lu\n" [Arg.ulong result.__deprecated_rows_changed],
   Event.printf "error_message: %s\n" [Arg.ptr result.__deprecated_error_message],
   Event.printf "internal_data: %s\n" [Arg.ptr result.internal_data]]

/-- Translation of `test_struct`, ffi.c lines 72-77; `result` is the
indeterminate content of the local of that name at its declaration. -/
def test_struct (result : duckdb_result) : List Event :=
  read_struct_values (set_struct_values result)

/-- The state of a run of the probe program: `stack k` is the indeterminate
content of the local `result` in the `k`-th call of `test_struct`, `runs`
counts those calls and `out` is what has been printed so far. -/
structure FfiProc where
  abi : Abi
  stack : Nat → duckdb_result
  runs : Nat
  out : List Event

/-- A call `test_struct();` from `main`. -/
def FfiProc.call_test_struct (p : FfiProc) : FfiProc :=
  { p with runs := p.runs + 1, out := p.out ++ test_struct (p.stack p.runs) }

/-- A call `print_allocs();` from `main`. -/
def FfiProc.call_print_allocs (p : FfiProc) : FfiProc :=
  { p with out := p.out ++ (print_allocs p.abi).2 }

/-- The loop `for (int i = 1; i < argc; i++) { ... }` of `main` in ffi.c, from
the given value of `i`; `argc` is the length of `argv`. -/
def ffi_main_loop (argv : List String) (i : Nat) (p : FfiProc) : FfiProc :=
  if h : i < argv.length then
    let arg := argv[i]
    if first_char arg = 't' then
      ffi_main_loop argv (i + 1) p.call_test_struct
    else if first_char arg = 'p' then
      ffi_main_loop argv (i + 1) p.call_print_allocs
    else
      ffi_main_loop argv (i + 1) p
  else
    p
termination_by argv.length - i

/-- Translation of `main`, ffi.c lines 79-93. -/
def ffi_main (argv : List String) (p : FfiProc) : FfiProc :=
  ffi_main_loop argv 1 p

/-! ## Vocabulary of the specification -/

/-- Whether an event is a `printf`. -/
def Event.is_printf : Event → Bool
  | Event.printf _ _ => true
  | _ => false

/-- The library calls of a trace, in order: the trace without its `printf`s. -/
def lib_calls (t : List Event) : List Event :=
  t.filter (fun e => !e.is_printf)

/-- The library calls `write_table` makes when nothing fails. -/
def write_calls (db con : Handle) : List Event :=
  [Event.duckdb_open "test.db",
   Event.duckdb_connect db,
   Event.duckdb_query con CREATE_SQL false]
    ++ List.replicate 10000 (Event.duckdb_query con INSERT_SQL false)
    ++ [Event.duckdb_disconnect con, Event.duckdb_close db]

/-- Outcomes of a run in which every call succeeds, all handles are distinct
and the fetched chunk has the three columns of `test_tbl`. -/
def all_ok : Outcomes :=
  { open_state := duckdb_state.DuckDBSuccess
    db := 1
    connect_state := duckdb_state.DuckDBSuccess
    con := 2
    query_state := duckdb_state.DuckDBSuccess
    insert_state := fun _ => duckdb_state.DuckDBSuccess
    result := 3
    vector_size := 2048
    row_count := 10000
    is_streaming := false
    chunk_count := 5
    chunk := 4
    chunk_size := 2048
    column_count := 3
    vector := fun c => 10 + c }

/-- Outcomes of a run of `write_table` on a database that already holds
`test_tbl`: everything succeeds except CREATE TABLE. -/
def create_fails : Outcomes :=
  { all_ok with query_state := duckdb_state.DuckDBError }

/-- The operations of the benchmark tool. -/
inductive DbOp where
  | read_table
  | write_table
  deriving DecidableEq, Repr

/-- The operations of the probe tool. -/
inductive FfiOp where
  | test_struct
  | print_allocs
  deriving DecidableEq, Repr

/-- The operation a command-line argument of the benchmark tool selects, by
its first character: `r` is read, `w` is write, anything else (the empty
argument too) selects nothing. -/
def db_select (arg : String) : Option DbOp :=
  match arg.data with
  | 'r' :: _ => some DbOp.read_table
  | 'w' :: _ => some DbOp.write_table
  | _ => none

/-- The operation a command-line argument of the probe tool selects, by its
first character: `t` is the struct test, `p` prints the sizes, anything else
(the empty argument too) selects nothing. -/
def ffi_select (arg : String) : Option FfiOp :=
  match arg.data with
  | 't' :: _ => some FfiOp.test_struct
  | 'p' :: _ => some FfiOp.print_allocs
  | _ => none

/-- The arguments `argv[1..argc-1]`, left to right, mapped by first character
and filtered. -/
def db_ops (argv : List String) : List DbOp :=
  (argv.drop 1).filterMap db_select

/-- The arguments `argv[1..argc-1]`, left to right, mapped by first character
and filtered. -/
def ffi_ops (argv : List String) : List FfiOp :=
  (argv.drop 1).filterMap ffi_select

/-- What one operation of the benchmark tool does in a run of it for which
the library hands back `o`: read is the trace of `read_table`, write the
trace of `write_table`. -/
def DbOp.trace : DbOp → Outcomes → List Event
  | DbOp.read_table, o => DuckDB.read_table o
  | DbOp.write_table, o => DuckDB.write_table o

/-- Running one operation of the benchmark tool: its trace, for the
outcomes of the run with the current number, is added to the output and the
number of runs goes up by one. -/
def DbOp.run (op : DbOp) (p : Proc) : Proc :=
  { env := p.env
    runs := p.runs + 1
    out := p.out ++ op.trace (p.env p.runs) }

/-- Running one operation of the probe tool: the struct test adds the
output of `test_struct`, for the content its local has in the run with the
current number, and uses up that number; printing the sizes adds the output
of `print_allocs`. -/
def FfiOp.run : FfiOp → FfiProc → FfiProc
  | FfiOp.test_struct, p =>
    { abi := p.abi
      stack := p.stack
      runs := p.runs + 1
      out := p.out ++ DuckDB.test_struct (p.stack p.runs) }
  | FfiOp.print_allocs, p =>
    { abi := p.abi
      stack := p.stack
      runs := p.runs
      out := p.out ++ (DuckDB.print_allocs p.abi).2 }

/-- The trace of a sequence of operations of the benchmark tool run one
after the other, the first being the run numbered `k`. -/
def db_trace (env : Nat → Outcomes) : Nat → List DbOp → List Event
  | _, [] => []
  | k, op :: ops => op.trace (env k) ++ db_trace env (k + 1) ops

/-- The output of a sequence of operations of the probe tool run one after
the other, the first struct test being the one numbered `k`. -/
def ffi_trace (abi : Abi) (stack : Nat → duckdb_result) : Nat → List FfiOp → List Event
  | _, [] => []
  | k, FfiOp.test_struct :: ops =>
    DuckDB.test_struct (stack k) ++ ffi_trace abi stack (k + 1) ops
  | k, FfiOp.print_allocs :: ops =>
    (DuckDB.print_allocs abi).2 ++ ffi_trace abi stack k ops

/-- The diagnostic line a call with the given state is followed by: the
line when the state is `DuckDBError`, nothing when it is `DuckDBSuccess`. -/
def diagnostic : duckdb_state → String → List Event
  | duckdb_state.DuckDBError, msg => [Event.printf msg []]
  | duckdb_state.DuckDBSuccess, _ => []

/-- The part of a run of the writer up to the CREATE TABLE query: open,
connect and CREATE TABLE are issued whatever failed, open and connect each
followed by its diagnostic line when it failed. -/
def write_head (o : Outcomes) : List Event :=
  [Event.duckdb_open "test.db"]
    ++ diagnostic o.open_state "ERROR opening database\n"
    ++ [Event.duckdb_connect o.db]
    ++ diagnostic o.connect_state "ERROR connecting to database\n"
    ++ [Event.printf "writing table\n" [],
        Event.duckdb_query o.con CREATE_SQL false]

/-- The INSERT numbered `k` of a run of the writer, followed by its
diagnostic line when it failed. -/
def insert_step (o : Outcomes) (k : Nat) : List Event :=
  Event.duckdb_query o.con INSERT_SQL false
    :: diagnostic (o.insert_state k) "ERROR inserting row\n"

/-- Running a sequence of operations one after the other. -/
def run_db_ops (ops : List DbOp) (p : Proc) : Proc :=
  ops.foldl (fun s op => op.run s) p

/-- Running a sequence of operations one after the other. -/
def run_ffi_ops (ops : List FfiOp) (p : FfiProc) : FfiProc :=
  ops.foldl (fun s op => op.run s) p

/-- Whether an event is a call of `duckdb_open`. -/
def Event.is_open : Event → Bool
  | Event.duckdb_open _ => true
  | _ => false

/-- Whether an event is a call of `duckdb_close`. -/
def Event.is_close : Event → Bool
  | Event.duckdb_close _ => true
  | _ => false

/-- Whether an event is a call of `duckdb_connect`. -/
def Event.is_connect : Event → Bool
  | Event.duckdb_connect _ => true
  | _ => false

/-- Whether an event is a call of `duckdb_disconnect`. -/
def Event.is_disconnect : Event → Bool
  | Event.duckdb_disconnect _ => true
  | _ => false

/-- Whether an event is an INSERT query. -/
def Event.is_insert : Event → Bool
  | Event.duckdb_query _ sql _ => sql = INSERT_SQL
  | _ => false

/-- The diagnostic line of a failed INSERT. -/
def INSERT_DIAG : Event := Event.printf "ERROR inserting row\n" []

/-- The INSERTs of a run of `write_table` that fail, by number. -/
def failed_inserts (o : Outcomes) : List Nat :=
  (List.range 10000).filter (fun k => o.insert_state k = duckdb_state.DuckDBError)

/-- Number of diagnostic lines a state accounts for: one when it is
`DuckDBError`, none otherwise. -/
def diag_count (state : duckdb_state) : Nat :=
  if state = duckdb_state.DuckDBError then 1 else 0

/-- The kinds of engine object the programs hold handles to, from the owner
down: a connection belongs to a database, a result to a connection, a chunk
to a result, a vector to a chunk. -/
inductive Res where
  | database
  | connection
  | result
  | chunk
  | vector
  deriving DecidableEq, Repr

/-- How far down the ownership chain a kind of object is. -/
def Res.depth : Res → Nat
  | Res.database => 0
  | Res.connection => 1
  | Res.result => 2
  | Res.chunk => 3
  | Res.vector => 4

/-- The kind of handle a library call is given, when it is given one. -/
def Event.takes : Event → Option Res
  | Event.printf _ _ => none
  | Event.duckdb_open _ => none
  | Event.duckdb_connect _ => some Res.database
  | Event.duckdb_query _ _ _ => some Res.connection
  | Event.duckdb_vector_size => none
  | Event.duckdb_row_count _ => some Res.result
  | Event.duckdb_result_is_streaming _ => some Res.result
  | Event.duckdb_result_chunk_count _ => some Res.result
  | Event.duckdb_result_get_chunk _ _ => some Res.result
  | Event.duckdb_data_chunk_get_size _ => some Res.chunk
  | Event.duckdb_data_chunk_get_column_count _ => some Res.chunk
  | Event.duckdb_data_chunk_get_vector _ _ => some Res.chunk
  | Event.duckdb_vector_get_column_type _ => some Res.vector
  | Event.duckdb_vector_get_data _ => some Res.vector
  | Event.duckdb_vector_get_validity _ => some Res.vector
  | Event.duckdb_destroy_data_chunk _ => some Res.chunk
  | Event.duckdb_destroy_result _ => some Res.result
  | Event.duckdb_disconnect _ => some Res.connection
  | Event.duckdb_close _ => some Res.database

/-- The kind of object a library call releases, when it is a release call. -/
def Event.releases : Event → Option Res
  | Event.duckdb_destroy_data_chunk _ => some Res.chunk
  | Event.duckdb_destroy_result _ => some Res.result
  | Event.duckdb_disconnect _ => some Res.connection
  | Event.duckdb_close _ => some Res.database
  | _ => none

/-- The kind of object a library call hands to the caller to be released
later: `duckdb_open` a database, `duckdb_connect` a connection, a
`duckdb_query` that is given a result to fill a result, and
`duckdb_result_get_chunk` a chunk.  (A vector stays owned by its chunk.) -/
def Event.acquires : Event → Option Res
  | Event.duckdb_open _ => some Res.database
  | Event.duckdb_connect _ => some Res.connection
  | Event.duckdb_query _ _ true => some Res.result
  | Event.duckdb_result_get_chunk _ _ => some Res.chunk
  | _ => none

/-- Whether `b`, coming after `a`, is a use after release: `a` releases an
object and `b` is given a handle to an object of that kind or of a kind it
owns. -/
def use_after_release (a b : Event) : Bool :=
  match a.releases, b.takes with
  | some r, some r' => decide (r.depth ≤ r'.depth)
  | _, _ => false

/-- No call of the trace is a use after release of an earlier one. -/
def release_safe (t : List Event) : Prop :=
  t.Pairwise (fun a b => use_after_release a b = false)

/-- The release calls of a trace, in order. -/
def release_calls (t : List Event) : List Event :=
  t.filter (fun e => e.releases.isSome)

/-- The library calls of a visit of column `c`. -/
def col_calls (chunk : Handle) (vector : idx_t → Handle) (c : idx_t) : List Event :=
  [Event.duckdb_data_chunk_get_vector chunk c,
   Event.duckdb_vector_get_column_type (vector c),
   Event.duckdb_vector_get_data (vector c),
   Event.duckdb_vector_get_validity (vector c)]

/-- The library calls of a run of `read_table`, from the handles it is given
and the column count of the fetched chunk alone. -/
def read_calls (db con result chunk : Handle) (vector : idx_t → Handle)
    (col_cnt : idx_t) : List Event :=
  [Event.duckdb_open "test.db",
   Event.duckdb_connect db,
   Event.duckdb_query con SELECT_SQL true,
   Event.duckdb_vector_size,
   Event.duckdb_row_count result,
   Event.duckdb_result_is_streaming result,
   Event.duckdb_result_chunk_count result,
   Event.duckdb_result_get_chunk result 1,
   Event.duckdb_data_chunk_get_size chunk,
   Event.duckdb_data_chunk_get_column_count chunk]
    ++ (List.range col_cnt).flatMap (col_calls chunk vector)
    ++ [Event.duckdb_destroy_data_chunk chunk,
        Event.duckdb_destroy_result result,
        Event.duckdb_disconnect con,
        Event.duckdb_close db]

/-- Whether an event is a call of `duckdb_result_get_chunk`. -/
def Event.is_get_chunk : Event → Bool
  | Event.duckdb_result_get_chunk _ _ => true
  | _ => false

/-- Whether an event is a call on a column: `duckdb_data_chunk_get_vector`
or one of the three calls on a vector. -/
def Event.on_column : Event → Bool
  | Event.duckdb_data_chunk_get_vector _ _ => true
  | Event.duckdb_vector_get_column_type _ => true
  | Event.duckdb_vector_get_data _ => true
  | Event.duckdb_vector_get_validity _ => true
  | _ => false

/-- The integer values a trace prints, in order. -/
def printed_values (t : List Event) : List Nat :=
  t.flatMap (fun e =>
    match e with
    | Event.printf _ args =>
      args.filterMap (fun a =>
        match a with
        | Arg.ulong v => some v
        | _ => none)
    | _ => [])

/-- The six types the probe measures: the five opaque handle types and the
result struct. -/
def measured_types : List CType :=
  [CType.duckdb_config, CType.duckdb_database, CType.duckdb_connection,
   CType.duckdb_prepared_statement, CType.duckdb_appender, CType.duckdb_result]

/-- The size and the alignment of each of the six measured types. -/
def measured (abi : Abi) : List Nat :=
  measured_types.flatMap (fun t => [abi.sizeof t, abi.alignof t])

/-- The output reports a size and an alignment for every measured type: the
twelve measured values all occur among the printed values, each as often as
it was measured. -/
def reports_all_measures (abi : Abi) (out : List Event) : Prop :=
  (measured abi).Subperm (printed_values out)

/-- The values on a 64-bit target: a handle is a pointer, of size and
alignment 8, and the result struct has size 48 and alignment 8 (the values
noted in the comments of `print_allocs`). -/
def lp64 : Abi :=
  { sizeof := fun t => if t = CType.duckdb_result then 48 else 8
    alignof := fun _ => 8 }

/-- Outcomes of a run in which open fails and every second INSERT fails,
everything else succeeding. -/
def flaky : Outcomes :=
  { all_ok with
    open_state := duckdb_state.DuckDBError
    insert_state := fun k =>
      if k % 2 = 0 then duckdb_state.DuckDBError else duckdb_state.DuckDBSuccess }

/-- Outcomes of a run of `read_table` whose chunk reports no column. -/
def no_columns : Outcomes :=
  { all_ok with column_count := 0 }

/-- A benchmark process at its start, for a library on which every run goes
as in `all_ok`. -/
def proc0 : Proc :=
  { env := fun _ => all_ok, runs := 0, out := [] }

/-- A probe process at its start on a 64-bit target, the local of
`test_struct` holding zeroes. -/
def ffi_proc0 : FfiProc :=
  { abi := lp64
    stack := fun _ =>
      { __deprecated_column_count := 0
        __deprecated_row_count := 0
        __deprecated_rows_changed := 0
        __deprecated_columns := Ptr.addr 0
        __deprecated_error_message := Ptr.addr 0
        internal_data := Ptr.addr 0 }
    runs := 0
    out := [] }

/-! ## Lemmas on the loops -/

theorem lib_calls_append (s t : List Event) :
    lib_calls (s ++ t) = lib_calls s ++ lib_calls t := by
  simp [lib_calls]

theorem lib_calls_on_error (st : duckdb_state) (msg : String) :
    lib_calls (on_error st msg) = [] := by
  unfold on_error lib_calls
  split <;> simp [Event.is_printf]

/-- The loop of `write_table` entered with `rows` runs its body for
`rows, rows + 1, ..., 9999`. -/
theorem insert_loop_eq (o : Outcomes) (n rows : Nat) (out : List Event)
    (h : rows + n = 10000) :
    insert_loop o rows out = out ++ (List.range' rows n).flatMap (insert_body o) := by
  induction n generalizing rows out with
  | zero =>
    rw [insert_loop, if_neg (by omega)]
    simp
  | succ n ih =>
    rw [insert_loop, if_pos (by omega), ih (rows + 1) _ (by omega)]
    simp [List.range'_succ]

theorem insert_loop_zero (o : Outcomes) :
    insert_loop o 0 [] = (List.range 10000).flatMap (insert_body o) := by
  rw [insert_loop_eq o 10000 0 [] rfl, List.range_eq_range', List.nil_append]

theorem lib_calls_insert_body (o : Outcomes) (k : Nat) :
    lib_calls (insert_body o k) = [Event.duckdb_query o.con INSERT_SQL false] := by
  unfold insert_body
  rw [lib_calls_append, lib_calls_on_error]
  simp [lib_calls, Event.is_printf]

theorem lib_calls_flatMap_insert_body (o : Outcomes) (l : List Nat) :
    lib_calls (l.flatMap (insert_body o))
      = List.replicate l.length (Event.duckdb_query o.con INSERT_SQL false) := by
  induction l with
  | nil => simp [lib_calls]
  | cons k l ih =>
    rw [List.flatMap_cons, lib_calls_append, ih, lib_calls_insert_body]
    simp [List.replicate_succ]

theorem lib_calls_insert_loop (o : Outcomes) :
    lib_calls (insert_loop o 0 [])
      = List.replicate 10000 (Event.duckdb_query o.con INSERT_SQL false) := by
  rw [insert_loop_zero, lib_calls_flatMap_insert_body, List.length_range]

theorem lib_calls_write_table_ok (o : Outcomes)
    (h : o.query_state ≠ duckdb_state.DuckDBError) :
    lib_calls (write_table o) = write_calls o.db o.con := by
  unfold write_table
  rw [if_neg h]
  simp only [lib_calls_append, lib_calls_on_error, lib_calls_insert_loop]
  simp only [lib_calls, List.filter, Event.is_printf, write_calls, Bool.not_true,
    Bool.not_false, List.append_assoc, List.nil_append, List.cons_append]

theorem lib_calls_write_table_error (o : Outcomes)
    (h : o.query_state = duckdb_state.DuckDBError) :
    lib_calls (write_table o)
      = [Event.duckdb_open "test.db", Event.duckdb_connect o.db,
         Event.duckdb_query o.con CREATE_SQL false] := by
  unfold write_table
  rw [if_pos h]
  simp only [lib_calls_append, lib_calls_on_error]
  simp [lib_calls, Event.is_printf]

theorem db_select_eq (arg : String) :
    db_select arg
      = if first_char arg = 'r' then some DbOp.read_table
        else if first_char arg = 'w' then some DbOp.write_table
        else none := by
  unfold db_select first_char
  cases h : arg.data with
  | nil => simp [List.headD]
  | cons c t =>
    simp only [List.headD]
    split <;> simp_all

theorem ffi_select_eq (arg : String) :
    ffi_select arg
      = if first_char arg = 't' then some FfiOp.test_struct
        else if first_char arg = 'p' then some FfiOp.print_allocs
        else none := by
  unfold ffi_select first_char
  cases h : arg.data with
  | nil => simp [List.headD]
  | cons c t =>
    simp only [List.headD]
    split <;> simp_all

theorem db_main_loop_eq (argv : List String) (n i : Nat) (p : Proc)
    (h : i + n = max i argv.length) :
    db_main_loop argv i p = run_db_ops ((argv.drop i).filterMap db_select) p := by
  induction n generalizing i p with
  | zero =>
    have hi : argv.length ≤ i := by omega
    rw [db_main_loop, dif_neg (by omega), List.drop_of_length_le hi]
    rfl
  | succ n ih =>
    have hi : i < argv.length := by omega
    have hn : i + 1 + n = max (i + 1) argv.length := by omega
    rw [db_main_loop, dif_pos hi, List.drop_eq_getElem_cons hi, List.filterMap_cons, db_select_eq]
    simp only [ih (i + 1) _ hn]
    by_cases hr : first_char argv[i] = 'r'
    · simp only [if_pos hr]
      rfl
    · by_cases hw : first_char argv[i] = 'w'
      · simp only [if_neg hr, if_pos hw]
        rfl
      · simp only [if_neg hr, if_neg hw]

theorem ffi_main_loop_eq (argv : List String) (n i : Nat) (p : FfiProc)
    (h : i + n = max i argv.length) :
    ffi_main_loop argv i p = run_ffi_ops ((argv.drop i).filterMap ffi_select) p := by
  induction n generalizing i p with
  | zero =>
    have hi : argv.length ≤ i := by omega
    rw [ffi_main_loop, dif_neg (by omega), List.drop_of_length_le hi]
    rfl
  | succ n ih =>
    have hi : i < argv.length := by omega
    have hn : i + 1 + n = max (i + 1) argv.length := by omega
    rw [ffi_main_loop, dif_pos hi, List.drop_eq_getElem_cons hi, List.filterMap_cons, ffi_select_eq]
    simp only [ih (i + 1) _ hn]
    by_cases hr : first_char argv[i] = 't'
    · simp only [if_pos hr]
      rfl
    · by_cases hw : first_char argv[i] = 'p'
      · simp only [if_neg hr, if_pos hw]
        rfl
      · simp only [if_neg hr, if_neg hw]

theorem db_main_eq (argv : List String) (p : Proc) :
    db_main argv p = run_db_ops (db_ops argv) p :=
  db_main_loop_eq argv (max 1 argv.length - 1) 1 p (by omega)

theorem ffi_main_eq (argv : List String) (q : FfiProc) :
    ffi_main argv q = run_ffi_ops (ffi_ops argv) q :=
  ffi_main_loop_eq argv (max 1 argv.length - 1) 1 q (by omega)

theorem mem_insert_body (o : Outcomes) (k : Nat) (e : Event) (h : e ∈ insert_body o k) :
    e = Event.duckdb_query o.con INSERT_SQL false ∨ e = INSERT_DIAG := by
  unfold insert_body on_error at h
  split at h <;> simp at h
  · rcases h with h | h
    · exact Or.inl h
    · exact Or.inr h
  · exact Or.inl h

theorem mem_insert_loop (o : Outcomes) (e : Event) (h : e ∈ insert_loop o 0 []) :
    e = Event.duckdb_query o.con INSERT_SQL false ∨ e = INSERT_DIAG := by
  rw [insert_loop_zero, List.mem_flatMap] at h
  obtain ⟨k, _, hk⟩ := h
  exact mem_insert_body o k e hk

/-- A predicate that rejects INSERT queries and their diagnostic counts
nothing in the loop of `write_table`. -/
theorem countP_insert_loop (o : Outcomes) (p : Event → Bool)
    (hq : p (Event.duckdb_query o.con INSERT_SQL false) = false)
    (hd : p INSERT_DIAG = false) :
    List.countP p (insert_loop o 0 []) = 0 := by
  rw [List.countP_eq_zero]
  intro e he
  rcases mem_insert_loop o e he with h | h <;> simp [h, hq, hd]

theorem count_diag_flatMap_insert_body (o : Outcomes) (l : List Nat) :
    List.count INSERT_DIAG (l.flatMap (insert_body o))
      = (l.filter (fun k => o.insert_state k = duckdb_state.DuckDBError)).length := by
  induction l with
  | nil => simp
  | cons k l ih =>
    rw [List.flatMap_cons, List.count_append, ih, List.filter_cons]
    unfold insert_body on_error
    by_cases hk : o.insert_state k = duckdb_state.DuckDBError
    · simp [hk, INSERT_DIAG]
      omega
    · simp [hk, INSERT_DIAG]

theorem count_diag_insert_loop (o : Outcomes) :
    List.count INSERT_DIAG (insert_loop o 0 []) = (failed_inserts o).length := by
  rw [insert_loop_zero, count_diag_flatMap_insert_body]
  rfl

/-- Counting in `write_table` with a predicate that rejects INSERT queries
and their diagnostic: the loop contributes nothing. -/
theorem countP_write_table (o : Outcomes) (p : Event → Bool)
    (hq : p (Event.duckdb_query o.con INSERT_SQL false) = false)
    (hd : p INSERT_DIAG = false) :
    List.countP p (write_table o)
      = List.countP p
          ([Event.duckdb_open "test.db"]
            ++ on_error o.open_state "ERROR opening database\n"
            ++ [Event.duckdb_connect o.db]
            ++ on_error o.connect_state "ERROR connecting to database\n"
            ++ [Event.printf "writing table\n" []]
            ++ [Event.duckdb_query o.con CREATE_SQL false]
            ++ (if o.query_state = duckdb_state.DuckDBError then
                  [Event.printf "ERROR creating table\n" []]
                else
                  [Event.duckdb_disconnect o.con, Event.duckdb_close o.db])) := by
  unfold write_table
  by_cases h : o.query_state = duckdb_state.DuckDBError
  · simp only [if_pos h]
  · simp only [if_neg h, List.countP_append, countP_insert_loop o p hq hd]
    simp [List.countP_cons]
    omega

theorem count_write_table (o : Outcomes) (e : Event)
    (hq : e ≠ Event.duckdb_query o.con INSERT_SQL false) (hd : e ≠ INSERT_DIAG) :
    List.count e (write_table o)
      = List.count e
          ([Event.duckdb_open "test.db"]
            ++ on_error o.open_state "ERROR opening database\n"
            ++ [Event.duckdb_connect o.db]
            ++ on_error o.connect_state "ERROR connecting to database\n"
            ++ [Event.printf "writing table\n" []]
            ++ [Event.duckdb_query o.con CREATE_SQL false]
            ++ (if o.query_state = duckdb_state.DuckDBError then
                  [Event.printf "ERROR creating table\n" []]
                else
                  [Event.duckdb_disconnect o.con, Event.duckdb_close o.db])) := by
  unfold List.count
  apply countP_write_table
  · simpa using Ne.symm hq
  · simpa using Ne.symm hd

theorem count_insert_diag_write_table (o : Outcomes)
    (h : o.query_state ≠ duckdb_state.DuckDBError) :
    List.count INSERT_DIAG (write_table o) = (failed_inserts o).length := by
  unfold write_table
  rw [if_neg h]
  simp only [List.count_append, count_diag_insert_loop]
  unfold on_error INSERT_DIAG
  split <;> split <;> simp

/-- The column loop of `read_table` entered with `c` runs its body for
`c, c + 1, ..., col_cnt - 1`. -/
theorem col_loop_eq (o : Outcomes) (col_cnt k c : Nat) (out : List Event)
    (h : c + k = max c col_cnt) :
    col_loop o col_cnt c out = out ++ (List.range' c k).flatMap (col_body o) := by
  induction k generalizing c out with
  | zero =>
    have hc : ¬ c < col_cnt := by omega
    rw [col_loop, if_neg hc]
    simp
  | succ k ih =>
    have hc : c < col_cnt := by omega
    rw [col_loop, if_pos hc, ih (c + 1) _ (by omega)]
    simp [List.range'_succ]

theorem col_loop_zero (o : Outcomes) (col_cnt : Nat) :
    col_loop o col_cnt 0 [] = (List.range col_cnt).flatMap (col_body o) := by
  rw [col_loop_eq o col_cnt col_cnt 0 [] (by omega), List.range_eq_range', List.nil_append]

/-- The increment `c++` of the column loop never wraps: it is only reached
with `c` below a column count that fits `idx_t`. -/
theorem col_loop_increment_no_wrap (col_cnt c : Nat) (hn : col_cnt < 2 ^ 64)
    (hc : c < col_cnt) : (c + 1) % 2 ^ 64 = c + 1 := by
  omega

theorem mem_col_loop (o : Outcomes) (e : Event) (h : e ∈ col_loop o o.column_count 0 []) :
    ∃ c, c < o.column_count ∧ e ∈ col_body o c := by
  rw [col_loop_zero, List.mem_flatMap] at h
  obtain ⟨c, hc, he⟩ := h
  exact ⟨c, List.mem_range.mp hc, he⟩

theorem releases_col_loop (o : Outcomes) (e : Event)
    (h : e ∈ col_loop o o.column_count 0 []) : e.releases = none := by
  obtain ⟨c, _, he⟩ := mem_col_loop o e h
  simp only [col_body, List.mem_cons, List.mem_singleton, List.not_mem_nil, or_false] at he
  rcases he with h | h | h | h | h <;> rw [h] <;> rfl

theorem releases_insert_loop (o : Outcomes) (e : Event)
    (h : e ∈ insert_loop o 0 []) : e.releases = none := by
  rcases mem_insert_loop o e h with h | h <;> rw [h] <;> rfl

theorem releases_on_error (st : duckdb_state) (msg : String) (e : Event)
    (h : e ∈ on_error st msg) : e.releases = none := by
  unfold on_error at h
  split at h
  · rw [List.mem_singleton.mp h]
    rfl
  · simp at h

/-- A predicate that rejects the five events of a column visit counts
nothing in the column loop. -/
theorem countP_col_loop (o : Outcomes) (p : Event → Bool)
    (hp : ∀ c, ∀ e ∈ col_body o c, p e = false) :
    List.countP p (col_loop o o.column_count 0 []) = 0 := by
  rw [List.countP_eq_zero]
  intro e he
  obtain ⟨c, _, hc⟩ := mem_col_loop o e he
  simp [hp c e hc]

theorem release_safe_of_no_release (t : List Event)
    (h : ∀ a ∈ t, a.releases = none) : release_safe t := by
  unfold release_safe
  induction t with
  | nil => exact List.Pairwise.nil
  | cons a t ih =>
    refine List.Pairwise.cons ?_ (ih (fun b hb => h b (List.mem_cons_of_mem a hb)))
    intro b _
    simp [use_after_release, h a (List.mem_cons_self a t)]

/-- A trace whose release calls all sit in a final segment is safe as soon
as that segment is. -/
theorem release_safe_append (pre rel : List Event)
    (h : ∀ a ∈ pre, a.releases = none) (hr : release_safe rel) :
    release_safe (pre ++ rel) := by
  unfold release_safe
  rw [List.pairwise_append]
  refine ⟨release_safe_of_no_release pre h, hr, ?_⟩
  intro a ha b _
  simp [use_after_release, h a ha]

theorem release_calls_of_no_release (t : List Event)
    (h : ∀ a ∈ t, a.releases = none) : release_calls t = [] := by
  unfold release_calls
  rw [List.filter_eq_nil_iff]
  intro a ha
  simp [h a ha]

/-- Everything `read_table` does before its four final calls is free of
release calls. -/
theorem releases_read_table_front (o : Outcomes) (a : Event)
    (ha : a ∈ [Event.duckdb_open "test.db"]
      ++ on_error o.open_state "ERROR opening database\n"
      ++ [Event.duckdb_connect o.db]
      ++ on_error o.connect_state "ERROR connecting to database\n"
      ++ [Event.duckdb_query o.con SELECT_SQL true]
      ++ on_error o.query_state "ERROR executing query\n"
      ++ [Event.duckdb_vector_size,
          Event.printf "VECTOR SIZE: %li\n" [Arg.ulong o.vector_size],
          Event.duckdb_row_count o.result,
          Event.printf "ROW COUNT: %li\n" [Arg.ulong o.row_count],
          Event.duckdb_result_is_streaming o.result,
          Event.printf "IS STREAMING: %d\n" [Arg.int (int_of_bool o.is_streaming)],
          Event.duckdb_result_chunk_count o.result,
          Event.printf "CHUNK COUNT: %d\n" [Arg.int (int_of_idx o.chunk_count)],
          Event.duckdb_result_get_chunk o.result 1,
          Event.duckdb_data_chunk_get_size o.chunk,
          Event.printf "CHUNK ROW COUNT: %li\n" [Arg.ulong o.chunk_size],
          Event.duckdb_data_chunk_get_column_count o.chunk,
          Event.printf "CHUNK COLUMN COUNT: %li\n" [Arg.ulong o.column_count]]
      ++ col_loop o o.column_count 0 []) :
    a.releases = none := by
  simp only [List.mem_append] at ha
  rcases ha with (((((((h | h) | h) | h) | h) | h) | h) | h)
  · rw [List.mem_singleton.mp h]; rfl
  · exact releases_on_error _ _ _ h
  · rw [List.mem_singleton.mp h]; rfl
  · exact releases_on_error _ _ _ h
  · rw [List.mem_singleton.mp h]; rfl
  · exact releases_on_error _ _ _ h
  · revert a
    simp [Event.releases]
  · exact releases_col_loop o a h

/-- Everything `write_table` does before disconnecting is free of release
calls. -/
theorem releases_write_table_front (o : Outcomes) (tl : List Event)
    (htl : ∀ a ∈ tl, a.releases = none) (a : Event)
    (ha : a ∈ [Event.duckdb_open "test.db"]
      ++ on_error o.open_state "ERROR opening database\n"
      ++ [Event.duckdb_connect o.db]
      ++ on_error o.connect_state "ERROR connecting to database\n"
      ++ [Event.printf "writing table\n" []]
      ++ [Event.duckdb_query o.con CREATE_SQL false]
      ++ tl) :
    a.releases = none := by
  simp only [List.mem_append] at ha
  rcases ha with ((((((h | h) | h) | h) | h) | h) | h)
  · rw [List.mem_singleton.mp h]; rfl
  · exact releases_on_error _ _ _ h
  · rw [List.mem_singleton.mp h]; rfl
  · exact releases_on_error _ _ _ h
  · rw [List.mem_singleton.mp h]; rfl
  · rw [List.mem_singleton.mp h]; rfl
  · exact htl a h

theorem write_table_ok_eq (o : Outcomes) (h : o.query_state ≠ duckdb_state.DuckDBError) :
    write_table o
      = ([Event.duckdb_open "test.db"]
          ++ on_error o.open_state "ERROR opening database\n"
          ++ [Event.duckdb_connect o.db]
          ++ on_error o.connect_state "ERROR connecting to database\n"
          ++ [Event.printf "writing table\n" []]
          ++ [Event.duckdb_query o.con CREATE_SQL false]
          ++ insert_loop o 0 [])
        ++ [Event.duckdb_disconnect o.con, Event.duckdb_close o.db] := by
  unfold write_table
  rw [if_neg h]
  simp only [List.append_assoc, List.singleton_append]

theorem filterMap_on_error {α : Type} (f : Event → Option α) (st : duckdb_state)
    (msg : String) (hf : f (Event.printf msg []) = none) :
    (on_error st msg).filterMap f = [] := by
  unfold on_error
  split <;> simp [hf]

theorem filterMap_col_loop {α : Type} (f : Event → Option α) (o : Outcomes)
    (hf : ∀ c, ∀ e ∈ col_body o c, f e = none) :
    (col_loop o o.column_count 0 []).filterMap f = [] := by
  rw [List.filterMap_eq_nil_iff]
  intro e he
  obtain ⟨c, _, hc⟩ := mem_col_loop o e he
  exact hf c e hc

theorem filterMap_insert_loop {α : Type} (f : Event → Option α) (o : Outcomes)
    (hq : f (Event.duckdb_query o.con INSERT_SQL false) = none)
    (hd : f INSERT_DIAG = none) :
    (insert_loop o 0 []).filterMap f = [] := by
  rw [List.filterMap_eq_nil_iff]
  intro e he
  rcases mem_insert_loop o e he with h | h <;> rw [h] <;> assumption

theorem acquires_read_table (o : Outcomes) :
    (read_table o).filterMap Event.acquires
      = [Res.database, Res.connection, Res.result, Res.chunk] := by
  unfold read_table
  simp only [List.filterMap_append, filterMap_on_error Event.acquires _ _ rfl]
  rw [filterMap_col_loop Event.acquires o (by intro c e he; revert e; simp [col_body, Event.acquires])]
  rfl

theorem releases_read_table (o : Outcomes) :
    (read_table o).filterMap Event.releases
      = [Res.chunk, Res.result, Res.connection, Res.database] := by
  unfold read_table
  simp only [List.filterMap_append, filterMap_on_error Event.releases _ _ rfl]
  rw [filterMap_col_loop Event.releases o (by intro c e he; revert e; simp [col_body, Event.releases])]
  rfl

theorem acquires_write_table (o : Outcomes) :
    (write_table o).filterMap Event.acquires = [Res.database, Res.connection] := by
  unfold write_table
  split
  · simp only [List.filterMap_append, filterMap_on_error Event.acquires _ _ rfl]
    rfl
  · simp only [List.filterMap_append, filterMap_on_error Event.acquires _ _ rfl,
      filterMap_insert_loop Event.acquires o rfl rfl]
    rfl

theorem releases_write_table (o : Outcomes) :
    (write_table o).filterMap Event.releases
      = if o.query_state = duckdb_state.DuckDBError then []
        else [Res.connection, Res.database] := by
  unfold write_table
  split
  · simp only [List.filterMap_append, filterMap_on_error Event.releases _ _ rfl]
    rfl
  · simp only [List.filterMap_append, filterMap_on_error Event.releases _ _ rfl,
      filterMap_insert_loop Event.releases o rfl rfl]
    rfl

theorem lib_calls_col_body (o : Outcomes) (c : Nat) :
    lib_calls (col_body o c) = col_calls o.chunk o.vector c := by
  rfl

theorem lib_calls_flatMap_col_body (o : Outcomes) (l : List Nat) :
    lib_calls (l.flatMap (col_body o)) = l.flatMap (col_calls o.chunk o.vector) := by
  unfold lib_calls
  rw [List.filter_flatMap]
  rfl

theorem lib_calls_col_loop (o : Outcomes) (n : Nat) :
    lib_calls (col_loop o n 0 []) = (List.range n).flatMap (col_calls o.chunk o.vector) := by
  rw [col_loop_zero, lib_calls_flatMap_col_body]

theorem lib_calls_read_table (o : Outcomes) :
    lib_calls (read_table o)
      = read_calls o.db o.con o.result o.chunk o.vector o.column_count := by
  unfold read_table
  simp only [lib_calls_append, lib_calls_on_error, lib_calls_col_loop]
  rfl

/-- Every run of `read_table` has one open, one connect, one disconnect and
one close. -/
theorem read_table_handles_once (o : Outcomes) :
    List.countP Event.is_open (read_table o) = 1
      ∧ List.countP Event.is_connect (read_table o) = 1
      ∧ List.countP Event.is_disconnect (read_table o) = 1
      ∧ List.countP Event.is_close (read_table o) = 1 := by
  refine ⟨?_, ?_, ?_, ?_⟩ <;>
  · unfold read_table
    simp only [List.countP_append]
    rw [countP_col_loop o _ (by intro c e he; revert e; simp [col_body, Event.is_open,
      Event.is_connect, Event.is_disconnect, Event.is_close])]
    unfold on_error
    split <;> split <;> split <;> rfl

/-- A run of `write_table` whose CREATE TABLE succeeds has one open, one
connect, one disconnect and one close. -/
theorem write_table_handles_once (o : Outcomes)
    (h : o.query_state ≠ duckdb_state.DuckDBError) :
    List.countP Event.is_open (write_table o) = 1
      ∧ List.countP Event.is_connect (write_table o) = 1
      ∧ List.countP Event.is_disconnect (write_table o) = 1
      ∧ List.countP Event.is_close (write_table o) = 1 := by
  refine ⟨?_, ?_, ?_, ?_⟩ <;>
  · rw [countP_write_table o _ rfl rfl, if_neg h]
    unfold on_error
    split <;> split <;> rfl

/-- A run of `write_table` whose CREATE TABLE fails has one open and one
connect, no disconnect and no close. -/
theorem write_table_handles_of_create_error (o : Outcomes)
    (h : o.query_state = duckdb_state.DuckDBError) :
    List.countP Event.is_open (write_table o) = 1
      ∧ List.countP Event.is_connect (write_table o) = 1
      ∧ List.countP Event.is_disconnect (write_table o) = 0
      ∧ List.countP Event.is_close (write_table o) = 0 := by
  refine ⟨?_, ?_, ?_, ?_⟩ <;>
  · rw [countP_write_table o _ rfl rfl, if_pos h]
    unfold on_error
    split <;> split <;> rfl

theorem run_db_ops_eq (ops : List DbOp) (p : Proc) :
    run_db_ops ops p
      = { env := p.env
          runs := p.runs + ops.length
          out := p.out ++ db_trace p.env p.runs ops } := by
  induction ops generalizing p with
  | nil => simp [run_db_ops, db_trace]
  | cons op ops ih =>
    have h : run_db_ops (op :: ops) p = run_db_ops ops (op.run p) := rfl
    rw [h, ih]
    simp [DbOp.run, db_trace, Nat.add_assoc, Nat.add_comm 1]

theorem run_ffi_ops_eq (ops : List FfiOp) (p : FfiProc) :
    run_ffi_ops ops p
      = { abi := p.abi
          stack := p.stack
          runs := p.runs + ops.count FfiOp.test_struct
          out := p.out ++ ffi_trace p.abi p.stack p.runs ops } := by
  induction ops generalizing p with
  | nil => simp [run_ffi_ops, ffi_trace]
  | cons op ops ih =>
    have h : run_ffi_ops (op :: ops) p = run_ffi_ops ops (op.run p) := rfl
    rw [h, ih]
    cases op
    · simp [FfiOp.run, ffi_trace, Nat.add_assoc, Nat.add_comm 1]
    · simp [FfiOp.run, ffi_trace]

theorem on_error_eq_diagnostic (st : duckdb_state) (msg : String) :
    on_error st msg = diagnostic st msg := by
  cases st <;> rfl

theorem flatMap_insert_body_eq (o : Outcomes) (l : List Nat) :
    l.flatMap (insert_body o) = l.flatMap (insert_step o) := by
  congr 1
  funext k
  unfold insert_body insert_step
  rw [on_error_eq_diagnostic]
  rfl

/-- The whole trace of a run of `write_table` whose CREATE TABLE succeeds. -/
theorem write_table_eq_of_create_ok (o : Outcomes)
    (h : o.query_state ≠ duckdb_state.DuckDBError) :
    write_table o
      = write_head o
        ++ (List.range 10000).flatMap (insert_step o)
        ++ [Event.duckdb_disconnect o.con, Event.duckdb_close o.db] := by
  unfold write_table write_head
  rw [if_neg h, insert_loop_zero, flatMap_insert_body_eq]
  simp only [on_error_eq_diagnostic, List.append_assoc, List.singleton_append,
    List.cons_append, List.nil_append]

/-- The whole trace of a run of `write_table` whose CREATE TABLE fails. -/
theorem write_table_eq_of_create_error (o : Outcomes)
    (h : o.query_state = duckdb_state.DuckDBError) :
    write_table o = write_head o ++ [Event.printf "ERROR creating table\n" []] := by
  unfold write_table write_head
  rw [if_pos h]
  simp only [on_error_eq_diagnostic, List.append_assoc, List.singleton_append,
    List.cons_append, List.nil_append]

/-! ## The claims -/

/-- C1: whenever the CREATE TABLE query succeeds, then for every outcome of
open, connect and of each INSERT, the library calls of `write_table` are
exactly open("test.db"), connect, the CREATE TABLE query, 10,000 INSERT
queries, disconnect and close, in this order. -/
theorem write_table_calls_of_create_ok (o : Outcomes)
    (h : o.query_state = duckdb_state.DuckDBSuccess) :
    lib_calls (write_table o)
      = [Event.duckdb_open "test.db",
         Event.duckdb_connect o.db,
         Event.duckdb_query o.con CREATE_SQL false]
        ++ List.replicate 10000 (Event.duckdb_query o.con INSERT_SQL false)
        ++ [Event.duckdb_disconnect o.con, Event.duckdb_close o.db] := by
  have h' : o.query_state ≠ duckdb_state.DuckDBError := by
    rw [h]
    decide
  rw [lib_calls_write_table_ok o h']
  rfl

theorem write_table_calls_of_create_ok_witness :
    all_ok.query_state = duckdb_state.DuckDBSuccess
      ∧ lib_calls (write_table all_ok)
          = [Event.duckdb_open "test.db",
             Event.duckdb_connect 1,
             Event.duckdb_query 2 CREATE_SQL false]
            ++ List.replicate 10000 (Event.duckdb_query 2 INSERT_SQL false)
            ++ [Event.duckdb_disconnect 2, Event.duckdb_close 1] :=
  ⟨rfl, write_table_calls_of_create_ok all_ok rfl⟩

/-- C2: in each of the two programs `main` handles `argv[1..argc-1]` from
left to right and runs exactly the operations the arguments select by their
first character, in the order of the arguments: in the benchmark tool an
argument starting with `r` adds a run of `read_table` to the trace and one
starting with `w` a run of `write_table`, in the probe tool one starting
with `t` adds the output of `test_struct` and one starting with `p` that of
`print_allocs`; an argument that selects nothing, the empty one included,
adds nothing and does not end the loop, and with no arguments nothing
runs. -/
theorem main_runs_selected_ops (argv : List String) (p : Proc) (q : FfiProc) :
    db_main argv p = run_db_ops (db_ops argv) p
      ∧ ffi_main argv q = run_ffi_ops (ffi_ops argv) q
      ∧ (∀ arg, db_select arg
          = if arg.data.head? = some 'r' then some DbOp.read_table
            else if arg.data.head? = some 'w' then some DbOp.write_table
            else none)
      ∧ (∀ arg, ffi_select arg
          = if arg.data.head? = some 't' then some FfiOp.test_struct
            else if arg.data.head? = some 'p' then some FfiOp.print_allocs
            else none)
      ∧ (argv.length ≤ 1 → db_main argv p = p ∧ ffi_main argv q = q)
      ∧ (db_main argv p).out = p.out ++ db_trace p.env p.runs (db_ops argv)
      ∧ (db_main argv p).runs = p.runs + (db_ops argv).length
      ∧ (ffi_main argv q).out = q.out ++ ffi_trace q.abi q.stack q.runs (ffi_ops argv)
      ∧ (ffi_main argv q).runs = q.runs + (ffi_ops argv).count FfiOp.test_struct
      ∧ (∀ (prog : String) (rest : List Char),
          (db_main [prog, String.mk ('r' :: rest)] p).out
            = p.out ++ read_table (p.env p.runs))
      ∧ (∀ (prog : String) (rest : List Char),
          (db_main [prog, String.mk ('w' :: rest)] p).out
            = p.out ++ write_table (p.env p.runs))
      ∧ (∀ (prog : String) (rest : List Char),
          (ffi_main [prog, String.mk ('t' :: rest)] q).out
            = q.out ++ test_struct (q.stack q.runs))
      ∧ (∀ (prog : String) (rest : List Char),
          (ffi_main [prog, String.mk ('p' :: rest)] q).out
            = q.out ++ (print_allocs q.abi).2) := by
  refine ⟨?_, ?_, ?_, ?_, ?_, ?_, ?_, ?_, ?_, ?_, ?_, ?_, ?_⟩
  · exact db_main_eq argv p
  · exact ffi_main_eq argv q
  · intro arg
    unfold db_select
    cases h : arg.data with
    | nil => simp
    | cons c t =>
      simp only [List.head?]
      split <;> simp_all
  · intro arg
    unfold ffi_select
    cases h : arg.data with
    | nil => simp
    | cons c t =>
      simp only [List.head?]
      split <;> simp_all
  · intro h
    have hd : argv.drop 1 = [] := List.drop_of_length_le h
    constructor
    · rw [db_main_eq, db_ops, hd]
      rfl
    · rw [ffi_main_eq, ffi_ops, hd]
      rfl
  · rw [db_main_eq, run_db_ops_eq]
  · rw [db_main_eq, run_db_ops_eq]
  · rw [ffi_main_eq, run_ffi_ops_eq]
  · rw [ffi_main_eq, run_ffi_ops_eq]
  · intro prog rest
    rw [db_main_eq, run_db_ops_eq]
    have h : db_ops [prog, String.mk ('r' :: rest)] = [DbOp.read_table] := rfl
    rw [h]
    simp [db_trace, DbOp.trace]
  · intro prog rest
    rw [db_main_eq, run_db_ops_eq]
    have h : db_ops [prog, String.mk ('w' :: rest)] = [DbOp.write_table] := rfl
    rw [h]
    simp [db_trace, DbOp.trace]
  · intro prog rest
    rw [ffi_main_eq, run_ffi_ops_eq]
    have h : ffi_ops [prog, String.mk ('t' :: rest)] = [FfiOp.test_struct] := rfl
    rw [h]
    simp [ffi_trace]
  · intro prog rest
    rw [ffi_main_eq, run_ffi_ops_eq]
    have h : ffi_ops [prog, String.mk ('p' :: rest)] = [FfiOp.print_allocs] := rfl
    rw [h]
    simp [ffi_trace]

theorem main_runs_selected_ops_witness :
    db_ops ["db", "w", "", "x", "r"] = [DbOp.write_table, DbOp.read_table]
      ∧ (db_main ["db", "w", "", "x", "r"] proc0).out
        = [] ++ (write_table all_ok ++ (read_table all_ok ++ []))
      ∧ (db_main ["db", "w", "", "x", "r"] proc0).runs = 2
      ∧ (ffi_main ["ffi", "p", "-t", "tp"] ffi_proc0).out
        = [] ++ ((print_allocs lp64).2 ++ (test_struct (ffi_proc0.stack 0) ++ []))
      ∧ (db_main ["db", "r"] proc0).out = [] ++ read_table all_ok
      ∧ db_main ["db"] proc0 = proc0
      ∧ ffi_main [] ffi_proc0 = ffi_proc0 :=
  ⟨by decide,
   (main_runs_selected_ops ["db", "w", "", "x", "r"] proc0 ffi_proc0).2.2.2.2.2.1,
   (main_runs_selected_ops ["db", "w", "", "x", "r"] proc0 ffi_proc0).2.2.2.2.2.2.1,
   (main_runs_selected_ops ["ffi", "p", "-t", "tp"] proc0 ffi_proc0).2.2.2.2.2.2.2.1,
   (main_runs_selected_ops [] proc0 ffi_proc0).2.2.2.2.2.2.2.2.2.1 "db" [],
   ((main_runs_selected_ops ["db"] proc0 ffi_proc0).2.2.2.2.1 (by decide)).1,
   ((main_runs_selected_ops [] proc0 ffi_proc0).2.2.2.2.1 (by decide)).2⟩

/-- C3, as stated, fails: when CREATE TABLE fails (here on a database that
already holds the table, everything else succeeding) `write_table` makes
three library calls, open, connect and the CREATE TABLE query, and so does
not issue the calls that follow CREATE TABLE in the failure-free run. -/
theorem write_table_create_failure_stops :
    lib_calls (write_table create_fails)
        = [Event.duckdb_open "test.db", Event.duckdb_connect 1,
           Event.duckdb_query 2 CREATE_SQL false]
      ∧ lib_calls (write_table all_ok) = write_calls 1 2
      ∧ ¬ lib_calls (write_table create_fails) = lib_calls (write_table all_ok) := by
  have h1 := lib_calls_write_table_error create_fails rfl
  have h2 := lib_calls_write_table_ok all_ok (by decide)
  refine ⟨h1, h2, ?_⟩
  rw [h1, h2]
  intro h
  have hl := congrArg List.length h
  simp only [write_calls, List.length_append, List.length_replicate, List.length_cons,
    List.length_nil] at hl
  omega

/-- C3, amended: in every run of `write_table` open, connect and the CREATE
TABLE query are issued in this order whatever failed, open and connect each
followed directly by its diagnostic line when it failed and by nothing when
it succeeded.  When CREATE TABLE succeeds the 10,000 INSERTs follow, each
failing one followed directly by its diagnostic line, then disconnect and
close, whatever failed.  When CREATE TABLE fails its diagnostic line
follows the query and after it no query is issued and nothing is printed;
the statement leaves open whether disconnect and close are called there. -/
theorem write_table_failure_policy (o : Outcomes) :
    List.count (Event.printf "ERROR opening database\n" []) (write_table o)
        = diag_count o.open_state
      ∧ List.count (Event.printf "ERROR connecting to database\n" []) (write_table o)
        = diag_count o.connect_state
      ∧ List.count (Event.printf "ERROR creating table\n" []) (write_table o)
        = diag_count o.query_state
      ∧ (o.query_state ≠ duckdb_state.DuckDBError →
          List.count INSERT_DIAG (write_table o) = (failed_inserts o).length
            ∧ lib_calls (write_table o) = write_calls o.db o.con)
      ∧ (o.query_state = duckdb_state.DuckDBError →
          List.countP Event.is_insert (write_table o) = 0)
      ∧ (o.query_state ≠ duckdb_state.DuckDBError →
          write_table o
            = write_head o
              ++ (List.range 10000).flatMap (insert_step o)
              ++ [Event.duckdb_disconnect o.con, Event.duckdb_close o.db])
      ∧ (o.query_state = duckdb_state.DuckDBError →
          ∃ rest : List Event,
            write_table o
                = write_head o ++ [Event.printf "ERROR creating table\n" []] ++ rest
              ∧ ∀ e ∈ rest, e.is_disconnect = true ∨ e.is_close = true) := by
  refine ⟨?_, ?_, ?_, ?_, ?_, ?_, ?_⟩
  · rw [count_write_table o _ (by simp) (by simp [INSERT_DIAG])]
    unfold on_error diag_count
    split <;> split <;> split <;> simp
  · rw [count_write_table o _ (by simp) (by simp [INSERT_DIAG])]
    unfold on_error diag_count
    split <;> split <;> split <;> simp
  · rw [count_write_table o _ (by simp) (by simp [INSERT_DIAG])]
    unfold on_error diag_count
    split <;> split <;> split <;> simp
  · intro h
    exact ⟨count_insert_diag_write_table o h, lib_calls_write_table_ok o h⟩
  · intro h
    unfold write_table
    rw [if_pos h]
    unfold on_error
    split <;> split <;> simp [Event.is_insert, CREATE_SQL, INSERT_SQL]
  · exact write_table_eq_of_create_ok o
  · intro h
    refine ⟨[], ?_, ?_⟩
    · rw [List.append_nil]
      exact write_table_eq_of_create_error o h
    · intro e he
      simp at he

theorem write_table_failure_policy_witness :
    (flaky.query_state ≠ duckdb_state.DuckDBError
        ∧ List.count (Event.printf "ERROR opening database\n" []) (write_table flaky) = 1
        ∧ List.count INSERT_DIAG (write_table flaky) = (failed_inserts flaky).length
        ∧ lib_calls (write_table flaky) = write_calls 1 2
        ∧ write_table flaky
          = write_head flaky
            ++ (List.range 10000).flatMap (insert_step flaky)
            ++ [Event.duckdb_disconnect 2, Event.duckdb_close 1])
      ∧ (create_fails.query_state = duckdb_state.DuckDBError
        ∧ List.count (Event.printf "ERROR creating table\n" []) (write_table create_fails) = 1
        ∧ List.countP Event.is_insert (write_table create_fails) = 0
        ∧ ∃ rest : List Event,
            write_table create_fails
                = write_head create_fails
                  ++ [Event.printf "ERROR creating table\n" []] ++ rest
              ∧ ∀ e ∈ rest, e.is_disconnect = true ∨ e.is_close = true) :=
  ⟨⟨by decide,
    (write_table_failure_policy flaky).1,
    ((write_table_failure_policy flaky).2.2.2.1 (by decide)).1,
    ((write_table_failure_policy flaky).2.2.2.1 (by decide)).2,
    (write_table_failure_policy flaky).2.2.2.2.2.1 (by decide)⟩,
   ⟨rfl,
    (write_table_failure_policy create_fails).2.2.1,
    (write_table_failure_policy create_fails).2.2.2.2.1 rfl,
    (write_table_failure_policy create_fails).2.2.2.2.2.2 rfl⟩⟩

/-- C4 fails on the code: in the run of `write_table` whose CREATE TABLE
fails (everything else succeeding) there is one open and one connect but no
disconnect and no close, while the run in which CREATE TABLE succeeds has
one of each. -/
theorem write_table_create_failure_leaks :
    List.countP Event.is_open (write_table create_fails) = 1
      ∧ List.countP Event.is_connect (write_table create_fails) = 1
      ∧ List.countP Event.is_disconnect (write_table create_fails) = 0
      ∧ List.countP Event.is_close (write_table create_fails) = 0
      ∧ List.countP Event.is_disconnect (write_table all_ok) = 1
      ∧ List.countP Event.is_close (write_table all_ok) = 1 := by
  refine ⟨?_, ?_, ?_, ?_, ?_, ?_⟩
  · rw [countP_write_table _ _ rfl rfl]; decide
  · rw [countP_write_table _ _ rfl rfl]; decide
  · rw [countP_write_table _ _ rfl rfl]; decide
  · rw [countP_write_table _ _ rfl rfl]; decide
  · rw [countP_write_table _ _ rfl rfl]; decide
  · rw [countP_write_table _ _ rfl rfl]; decide

/-- C5: in every run of `read_table` the release calls are
destroy_data_chunk, destroy_result, disconnect, close, in this order, and in
every run of `write_table` they are disconnect, close, in this order (or
none at all, when CREATE TABLE failed); the objects released are released
in the reverse of the order in which they were acquired; and no call that
is given a handle comes after the call that releases that handle or an
owner of it. -/
theorem release_order (o : Outcomes) :
    release_calls (read_table o)
        = [Event.duckdb_destroy_data_chunk o.chunk, Event.duckdb_destroy_result o.result,
           Event.duckdb_disconnect o.con, Event.duckdb_close o.db]
      ∧ release_calls (write_table o)
        = (if o.query_state = duckdb_state.DuckDBError then []
           else [Event.duckdb_disconnect o.con, Event.duckdb_close o.db])
      ∧ (read_table o).filterMap Event.releases
        = ((read_table o).filterMap Event.acquires).reverse
      ∧ ((write_table o).filterMap Event.releases).Sublist
          ((write_table o).filterMap Event.acquires).reverse
      ∧ release_safe (read_table o)
      ∧ release_safe (write_table o) := by
  refine ⟨?_, ?_, ?_, ?_, ?_, ?_⟩
  rotate_left 2
  · rw [releases_read_table, acquires_read_table]
    rfl
  · rw [releases_write_table, acquires_write_table]
    split
    · exact List.nil_sublist _
    · exact List.Sublist.refl _
  rotate_left 2
  · unfold read_table release_calls
    rw [List.filter_append]
    have h := release_calls_of_no_release _ (releases_read_table_front o)
    unfold release_calls at h
    rw [h]
    rfl
  · by_cases hq : o.query_state = duckdb_state.DuckDBError
    · rw [if_pos hq]
      apply release_calls_of_no_release
      unfold write_table
      rw [if_pos hq]
      apply releases_write_table_front
      intro a ha
      rw [List.mem_singleton.mp ha]
      rfl
    · rw [if_neg hq, write_table_ok_eq o hq]
      unfold release_calls
      rw [List.filter_append]
      have h := release_calls_of_no_release _
        (releases_write_table_front o _ (releases_insert_loop o))
      unfold release_calls at h
      rw [h]
      rfl
  · unfold read_table
    apply release_safe_append _ _ (releases_read_table_front o)
    unfold release_safe
    simp [use_after_release, Event.releases, Event.takes, Res.depth]
  · by_cases hq : o.query_state = duckdb_state.DuckDBError
    · apply release_safe_of_no_release
      unfold write_table
      rw [if_pos hq]
      apply releases_write_table_front
      intro a ha
      rw [List.mem_singleton.mp ha]
      rfl
    · rw [write_table_ok_eq o hq]
      apply release_safe_append _ _
        (releases_write_table_front o _ (releases_insert_loop o))
      unfold release_safe
      simp [use_after_release, Event.releases, Event.takes, Res.depth]

/-- C9: every run of `read_table` fetches exactly one chunk, at index 1:
its only call of `duckdb_result_get_chunk` has index 1, index 0 is never
fetched, and the row count, the streaming flag and the chunk count of the
result (chunk counts 0 and 1 included) have no influence on the library
calls made. -/
theorem read_table_fetches_chunk_one (o : Outcomes) (rows chunks : idx_t)
    (streaming : Bool) :
    (read_table o).filter Event.is_get_chunk = [Event.duckdb_result_get_chunk o.result 1]
      ∧ (∀ h : Handle, Event.duckdb_result_get_chunk h 0 ∉ read_table o)
      ∧ lib_calls (read_table
          { o with row_count := rows, is_streaming := streaming, chunk_count := chunks })
        = lib_calls (read_table o) := by
  have h1 : (read_table o).filter Event.is_get_chunk
      = [Event.duckdb_result_get_chunk o.result 1] := by
    have hl : (col_loop o o.column_count 0 []).filter Event.is_get_chunk = [] := by
      rw [List.filter_eq_nil_iff]
      intro e he
      obtain ⟨c, _, hc⟩ := mem_col_loop o e he
      simp only [col_body, List.mem_cons, List.mem_singleton, List.not_mem_nil,
        or_false] at hc
      rcases hc with h | h | h | h | h <;> rw [h] <;> simp [Event.is_get_chunk]
    unfold read_table
    simp only [List.filter_append, hl]
    unfold on_error
    split <;> split <;> split <;> rfl
  refine ⟨h1, ?_, ?_⟩
  · intro h hmem
    have hf : Event.duckdb_result_get_chunk h 0
        ∈ (read_table o).filter Event.is_get_chunk :=
      List.mem_filter.mpr ⟨hmem, rfl⟩
    rw [h1] at hf
    simp at hf
  · rw [lib_calls_read_table, lib_calls_read_table]

/-- C10: for every column count the fetched chunk reports, the column loop
of `read_table` ends and visits the columns 0, 1, ..., n-1 in increasing
order, each once: it prints the index, requests the vector of that column
from the chunk and asks for the type, the data and the validity of the
vector it was handed.  Nothing before the loop touches a column or releases
anything, with no column no vector is requested, and the chunk and the
result are destroyed right after the last visit. -/
theorem read_table_column_loop (o : Outcomes) :
    (∃ pre : List Event,
        read_table o
          = pre
            ++ (List.range o.column_count).flatMap (fun c =>
                [Event.printf "CHUNK COL: %ld\n" [Arg.ulong c],
                 Event.duckdb_data_chunk_get_vector o.chunk c,
                 Event.duckdb_vector_get_column_type (o.vector c),
                 Event.duckdb_vector_get_data (o.vector c),
                 Event.duckdb_vector_get_validity (o.vector c)])
            ++ [Event.duckdb_destroy_data_chunk o.chunk,
                Event.duckdb_destroy_result o.result,
                Event.duckdb_disconnect o.con,
                Event.duckdb_close o.db]
          ∧ ∀ e ∈ pre, e.on_column = false ∧ e.releases = none)
      ∧ (o.column_count = 0 → ∀ e ∈ read_table o, e.on_column = false) := by
  have hpre : ∀ e ∈ [Event.duckdb_open "test.db"]
      ++ on_error o.open_state "ERROR opening database\n"
      ++ [Event.duckdb_connect o.db]
      ++ on_error o.connect_state "ERROR connecting to database\n"
      ++ [Event.duckdb_query o.con SELECT_SQL true]
      ++ on_error o.query_state "ERROR executing query\n"
      ++ [Event.duckdb_vector_size,
          Event.printf "VECTOR SIZE: %li\n" [Arg.ulong o.vector_size],
          Event.duckdb_row_count o.result,
          Event.printf "ROW COUNT: %li\n" [Arg.ulong o.row_count],
          Event.duckdb_result_is_streaming o.result,
          Event.printf "IS STREAMING: %d\n" [Arg.int (int_of_bool o.is_streaming)],
          Event.duckdb_result_chunk_count o.result,
          Event.printf "CHUNK COUNT: %d\n" [Arg.int (int_of_idx o.chunk_count)],
          Event.duckdb_result_get_chunk o.result 1,
          Event.duckdb_data_chunk_get_size o.chunk,
          Event.printf "CHUNK ROW COUNT: %li\n" [Arg.ulong o.chunk_size],
          Event.duckdb_data_chunk_get_column_count o.chunk,
          Event.printf "CHUNK COLUMN COUNT: %li\n" [Arg.ulong o.column_count]],
      e.on_column = false ∧ e.releases = none := by
    unfold on_error
    split <;> split <;> split <;> simp [Event.on_column, Event.releases]
  have hmain : ∃ pre : List Event,
      read_table o
        = pre
          ++ (List.range o.column_count).flatMap (fun c =>
              [Event.printf "CHUNK COL: %ld\n" [Arg.ulong c],
               Event.duckdb_data_chunk_get_vector o.chunk c,
               Event.duckdb_vector_get_column_type (o.vector c),
               Event.duckdb_vector_get_data (o.vector c),
               Event.duckdb_vector_get_validity (o.vector c)])
          ++ [Event.duckdb_destroy_data_chunk o.chunk,
              Event.duckdb_destroy_result o.result,
              Event.duckdb_disconnect o.con,
              Event.duckdb_close o.db]
        ∧ ∀ e ∈ pre, e.on_column = false ∧ e.releases = none := by
    refine ⟨_, ?_, hpre⟩
    unfold read_table
    rw [col_loop_zero]
    rfl
  refine ⟨hmain, ?_⟩
  intro h0 e he
  obtain ⟨pre, heq, hp⟩ := hmain
  rw [heq, h0] at he
  simp only [List.range_zero, List.flatMap_nil, List.append_nil, List.mem_append] at he
  rcases he with he | he
  · exact (hp e he).1
  · simp only [List.mem_cons, List.mem_singleton, List.not_mem_nil, or_false] at he
    rcases he with h | h | h | h <;> rw [h] <;> rfl

theorem read_table_column_loop_witness :
    no_columns.column_count = 0 ∧ ∀ e ∈ read_table no_columns, e.on_column = false :=
  ⟨rfl, (read_table_column_loop no_columns).2 rfl⟩

/-- C7: whatever a `duckdb_result` holds, after `set_struct_values` its
column count is 100, its row count 200, its rows-changed count 300, its
error message the literal "error message", its internal data the literal
"internal data" and its columns pointer what it was; `read_struct_values`
then prints these five values in this order, so what `test_struct` prints
does not depend on the initial content of its local. -/
theorem set_then_read_struct (r r2 : duckdb_result) :
    (set_struct_values r).__deprecated_column_count = 100
      ∧ (set_struct_values r).__deprecated_row_count = 200
      ∧ (set_struct_values r).__deprecated_rows_changed = 300
      ∧ (set_struct_values r).__deprecated_error_message = Ptr.literal "error message"
      ∧ (set_struct_values r).internal_data = Ptr.literal "internal data"
      ∧ (set_struct_values r).__deprecated_columns = r.__deprecated_columns
      ∧ read_struct_values (set_struct_values r)
        = [Event.printf "column_count: %lu\n" [Arg.ulong 100],
           Event.printf "row_count: %lu\n" [Arg.ulong 200],
           Event.printf "rows_changed: %lu\n" [Arg.ulong 300],
           Event.printf "error_message: %s\n" [Arg.ptr (Ptr.literal "error message")],
           Event.printf "internal_data: %s\n" [Arg.ptr (Ptr.literal "internal data")]]
      ∧ test_struct r = read_struct_values (set_struct_values r)
      ∧ test_struct r = test_struct r2 :=
  ⟨rfl, rfl, rfl, rfl, rfl, rfl, rfl, rfl, rfl⟩

/-- C8 fails as stated: on a 64-bit target `print_allocs` prints two values,
48 and 8, the size and the alignment of the result struct, which cannot
account for the twelve values it measured. -/
theorem print_allocs_reports_result_only :
    printed_values (print_allocs lp64).2 = [48, 8]
      ∧ measured lp64 = [8, 8, 8, 8, 8, 8, 8, 8, 8, 8, 48, 8]
      ∧ ¬ reports_all_measures lp64 (print_allocs lp64).2 := by
  refine ⟨rfl, rfl, ?_⟩
  intro h
  have hl := h.length_le
  have h1 : (measured lp64).length = 12 := rfl
  have h2 : (printed_values (print_allocs lp64).2).length = 2 := rfl
  omega

/-- C8, amended: `print_allocs` measures the size and the alignment of the
five handle types and of the result struct, and prints those of the result
struct only: its output is the two lines RESULT SIZE and RESULT ALIGN. -/
theorem print_allocs_output (abi : Abi) :
    (print_allocs abi).2
        = [Event.printf "RESULT SIZE: %li\n" [Arg.ulong (abi.sizeof CType.duckdb_result)],
           Event.printf "RESULT ALIGN: %li\n" [Arg.ulong (abi.alignof CType.duckdb_result)]]
      ∧ printed_values (print_allocs abi).2
        = [abi.sizeof CType.duckdb_result, abi.alignof CType.duckdb_result]
      ∧ (print_allocs abi).1
        = { config_sizeof := abi.sizeof CType.duckdb_config
            config_alignof := abi.alignof CType.duckdb_config
            database_sizeof := abi.sizeof CType.duckdb_database
            database_alignof := abi.alignof CType.duckdb_database
            connection_sizeof := abi.sizeof CType.duckdb_connection
            connection_alignof := abi.alignof CType.duckdb_connection
            result_sizeof := abi.sizeof CType.duckdb_result
            result_alignof := abi.alignof CType.duckdb_result
            statement_sizeof := abi.sizeof CType.duckdb_prepared_statement
            statement_alignof := abi.alignof CType.duckdb_prepared_statement
            appender_sizeof := abi.sizeof CType.duckdb_appender
            appender_alignof := abi.alignof CType.duckdb_appender } :=
  ⟨rfl, rfl, rfl⟩

end DuckDB
